import Mathlib

/-!
Verification of the pipcook costa subprocess runtime and its wire protocol.

This development shallowly embeds the two core source files:
- the subprocess endpoint (`client`): message dispatch by operator, the
  handshake, plugin invocation with result-reference resolution, the
  result table `previousResults`, and the reply mechanism `recv`;
- the orchestrator side (`PluginRunnable`): the `init`/`idle`/`busy` state
  machine, `start`, `valueOf`, `destroy`, `send`, `read`, `waitOn`,
  `sendAndWait`, `handleMessage` and `afterDestroy`.

Values that cross the process boundary are JSON-serializable; the wire
serialization (`PluginProto.stringify` / `PluginProto.parse`) is modelled as
the identity on structured frames, which is justified by its symmetry
(decode of encode is the identity).  Machine effects are made explicit:
frames sent, strings logged to the console, a process-exit flag, and a
filesystem modelled as the list of existing paths.
-/

namespace Costa

/-- The values flowing through the endpoint: the JSON-serializable values
(protocol params, plugin arguments, plugin return values — `null` is
included because a caller may pass `null` and JSON keeps it) plus opaque
host values (`native`), needed because property reads on the
`{}`-prototyped result table can hit an inherited `Object.prototype`
member — a built-in function, identified here by its name — and hand it
to the plugin. -/
inductive Json where
  | null : Json
  | bool : Bool → Json
  | num : Int → Json
  | str : String → Json
  | arr : List Json → Json
  | obj : List (String × Json) → Json
  | native : String → Json

/-- JavaScript truthiness of a defined value, as used by `if (resp)` and by
the `&& previousResults[arg.id]` test in `deserializeArg`. -/
def jsTruthy : Json → Bool
  | Json.null => false
  | Json.bool b => b
  | Json.num n => if n = 0 then false else true
  | Json.str s => if s = "" then false else true
  | Json.arr _ => true
  | Json.obj _ => true
  | Json.native _ => true

/-- Truthiness of a possibly-undefined value (`none` models `undefined`). -/
def jsTruthyOpt : Option Json → Bool
  | none => false
  | some v => jsTruthy v

mutual

/-- JavaScript string coercion of a value, used when a value is taken as a
property key (`previousResults[arg.id]`). -/
def jsToKeyAux : Json → String
  | Json.null => "null"
  | Json.bool b => if b then "true" else "false"
  | Json.num n => toString n
  | Json.str s => s
  | Json.arr xs => jsToKeyList xs
  | Json.obj _ => "[object Object]"
  | Json.native s => "function " ++ s ++ "() \x7b [native code] \x7d"

/-- JavaScript `Array.prototype.toString`: elements joined by commas, with
`null` elements rendered as the empty string. -/
def jsToKeyList : List Json → String
  | [] => ""
  | [Json.null] => ""
  | [x] => jsToKeyAux x
  | Json.null :: xs => "," ++ jsToKeyList xs
  | x :: xs => jsToKeyAux x ++ "," ++ jsToKeyList xs

end

/-- Property key obtained from a possibly-undefined value (`undefined`
coerces to the key `"undefined"`). -/
def jsToKey : Option Json → String
  | none => "undefined"
  | some v => jsToKeyAux v

/-- JavaScript property access `v[k]`: throws a `TypeError` when `v` is
`null`, yields the property when `v` is an object that has it, and yields
`undefined` (here `none`) otherwise. -/
def jsGetProp (v : Json) (k : String) : Except String (Option Json) :=
  match v with
  | Json.null => Except.error ("TypeError: Cannot read property of null: " ++ k)
  | Json.obj fields => Except.ok (fields.lookup k)
  | _ => Except.ok none

/-- Total property access used to state specifications: like `jsGetProp`
but `null` simply has no properties instead of throwing. -/
def objGet (v : Json) (k : String) : Option Json :=
  match v with
  | Json.obj fields => fields.lookup k
  | _ => none

/-- The operator set of the wire protocol. -/
inductive PluginOperator where
  | START : PluginOperator
  | WRITE : PluginOperator
  | READ : PluginOperator
  | COMPILE : PluginOperator
deriving DecidableEq, Repr

/-- A protocol message: an event name together with ordered params. -/
structure PluginMessage where
  event : String
  params : List Json

/-- A protocol frame: an operator together with its message. -/
structure PluginProto where
  op : PluginOperator
  message : PluginMessage

/-- The marker string carried by every result reference
(`RunnableResponse.__flag__`). -/
def runnableResultFlag : String := "__pipcook_plugin_runnable_result__"

/-- The orchestrator-side result reference `RunnableResponse`, as the JSON
object it serializes to: the wrapped id plus the marker flag. -/
def RunnableResponse (id : Json) : Json :=
  Json.obj [("id", id), ("__flag__", Json.str runnableResultFlag)]

/-! ## Subprocess endpoint (the `client` module) -/

/-- Process-wide state of the subprocess endpoint: the module-level
`clientId` (initially unset) and the result table `previousResults`
(initially empty), a mapping from result id to the produced value. -/
structure ClientState where
  clientId : Option String
  previousResults : List (String × Json)

/-- The observable outcome of handling one inbound frame: the new endpoint
state, the frames sent back over the channel by `recv`, the strings logged
via `console.error`, and whether `process.exit` was called. -/
structure ClientEffect where
  state : ClientState
  sent : List PluginProto
  logged : List String
  exited : Bool

/-- `recv(respOp, ...params)`: the reply frame built by the endpoint, with
event `pong` and the given params. -/
def recvFrame (respOp : PluginOperator) (params : List Json) : PluginProto :=
  ⟨respOp, ⟨"pong", params⟩⟩

/-- The members `Object.prototype` owns and a plain `{}` object therefore
inherits: the built-in functions and, for `__proto__`, the prototype
object itself — every one of them truthy.  They are modelled as opaque
`Json.native` values named by their key. -/
def objectProtoMember (k : String) : Option Json :=
  if k ∈ ["constructor", "hasOwnProperty", "isPrototypeOf", "propertyIsEnumerable",
      "toLocaleString", "toString", "valueOf", "__defineGetter__", "__defineSetter__",
      "__lookupGetter__", "__lookupSetter__", "__proto__"] then
    some (Json.native k)
  else
    none

/-- The JavaScript property read `previousResults[k]` on the result table:
`previousResults` is a plain `{}` object, so a key with no own entry is
still looked up along the prototype chain and can hit an inherited
`Object.prototype` member.  Own entries are found first; since the table's
own keys are minted UUIDs, they never shadow a prototype member in any
reachable state. -/
def tableGet (previousResults : List (String × Json)) (k : String) : Option Json :=
  match List.lookup k previousResults with
  | some v => some v
  | none => objectProtoMember k

/-- `deserializeArg`: if the argument carries the runnable-result flag and
its id, read as a property of `previousResults`, finds a truthy value —
an own stored entry or an inherited `Object.prototype` member — replace
the argument by that value; otherwise pass the argument through.
Property access follows JavaScript, so a `null` argument raises a
`TypeError`. -/
def deserializeArg (previousResults : List (String × Json)) (arg : Json) :
    Except String Json :=
  match jsGetProp arg "__flag__" with
  | Except.error e => Except.error e
  | Except.ok flag =>
    match flag with
    | some (Json.str s) =>
      if s = runnableResultFlag then
        match jsGetProp arg "id" with
        | Except.error e => Except.error e
        | Except.ok idv =>
          match tableGet previousResults (jsToKey idv) with
          | some v => if jsTruthy v then Except.ok v else Except.ok arg
          | none => Except.ok arg
      else
        Except.ok arg
    | _ => Except.ok arg

/-- `pluginArgs.map(deserializeArg)`: left-to-right, failing at the first
argument whose deserialization throws. -/
def deserializeArgs (previousResults : List (String × Json)) :
    List Json → Except String (List Json)
  | [] => Except.ok []
  | a :: rest => do
    let r ← deserializeArg previousResults a
    let rs ← deserializeArgs previousResults rest
    pure (r :: rs)

/-- The body of the `try` block of the `start` event handler.  `load`
models everything that runs before the plugin call and can throw —
`require('@pipcook/boa')`, the optional `PYTHONPATH` setup via
`pkg.pipcook?.target.PYTHONPATH`, `require(pkg.name)` and default-export
unwrapping — and on success yields the plugin function itself, which takes
the deserialized arguments and either throws or returns a possibly-absent
value.  The params of the frame are `[pkg, ...pluginArgs]`, so the plugin
arguments are the params after the first. -/
def runStart (load : Except String (List Json → Except String (Option Json)))
    (previousResults : List (String × Json)) (params : List Json) :
    Except String (Option Json) := do
  let fn ← load
  let rargs ← deserializeArgs previousResults (params.drop 1)
  fn rargs

/-- The `START` handler: on event `handshake` with a string first param,
record it as the client id and reply `pong` with that id as the sole
param; otherwise do nothing. -/
def handleStart (st : ClientState) (proto : PluginProto) : ClientEffect :=
  match proto.message.params.head? with
  | some (Json.str s) =>
    if proto.message.event = "handshake" then
      ⟨⟨some s, st.previousResults⟩, [recvFrame PluginOperator.START [Json.str s]], [], false⟩
    else
      ⟨st, [], [], false⟩
  | _ => ⟨st, [], [], false⟩

/-- The `WRITE` handler.  Event `start`: run the plugin via `runStart` with
a fresh result id `freshId` at hand; a truthy return value is stored in
`previousResults` under `freshId` and answered by `pong` with `freshId` as
sole param; a falsy or absent return value is answered by `pong` with no
params; a thrown error is logged and nothing is sent.  Event `destroy`:
exit the process.  Any other event: do nothing. -/
def handleWrite (load : Except String (List Json → Except String (Option Json)))
    (freshId : String) (st : ClientState) (proto : PluginProto) : ClientEffect :=
  if proto.message.event = "start" then
    match runStart load st.previousResults proto.message.params with
    | Except.error err => ⟨st, [], ["occurring an error: " ++ err], false⟩
    | Except.ok resp =>
      match resp with
      | some v =>
        if jsTruthy v then
          ⟨⟨st.clientId, (freshId, v) :: st.previousResults⟩,
            [recvFrame PluginOperator.WRITE [Json.str freshId]], [], false⟩
        else
          ⟨st, [recvFrame PluginOperator.WRITE []], [], false⟩
      | none => ⟨st, [recvFrame PluginOperator.WRITE []], [], false⟩
  else if proto.message.event = "destroy" then
    ⟨st, [], [], true⟩
  else
    ⟨st, [], [], false⟩

/-- The endpoint's `process.on('message')` dispatcher: parse the frame and
dispatch strictly by operator.  The `READ` and `COMPILE` handlers are
empty in the source (`// TODO`), so those frames have no effect at all. -/
def handleFrame (load : Except String (List Json → Except String (Option Json)))
    (freshId : String) (st : ClientState) (proto : PluginProto) : ClientEffect :=
  match proto.op with
  | PluginOperator.START => handleStart st proto
  | PluginOperator.WRITE => handleWrite load freshId st proto
  | PluginOperator.READ => ⟨st, [], [], false⟩
  | PluginOperator.COMPILE => ⟨st, [], [], false⟩

/-! ## Orchestrator side (`PluginRunnable`) -/

/-- The Runnable state machine: `init` before bootstrap, `idle` when no
call is in flight, `busy` while exactly one call is in flight. -/
inductive RState where
  | init : RState
  | idle : RState
  | busy : RState
deriving DecidableEq, Repr

/-- `path.join` of two segments, for the paths this runtime builds. -/
def pathJoin (a b : String) : String := a ++ "/" ++ b

/-- The characters of the part of a name before its last slash, or `none`
when it contains no slash. -/
def beforeLastSlash : List Char → Option (List Char)
  | [] => none
  | c :: rest =>
    match beforeLastSlash rest with
    | some pre => some (c :: pre)
    | none => if c = '/' then some [] else none

/-- `path.parse(name).dir`: for a scoped package name such as
`@scope/pkg` this is `@scope`; for an unscoped name it is empty. -/
def parseDir (name : String) : String :=
  match beforeLastSlash name.toList with
  | some pre => String.mk pre
  | none => ""

/-- `ensureDir`: create the path if it does not already exist.  The
filesystem is modelled as the list of existing paths. -/
def ensureDir (fs : List String) (p : String) : List String :=
  if p ∈ fs then fs else fs ++ [p]

/-- `ensureSymlink src dst`: materialize the link path `dst` (pointing at
the shared install location) if absent. -/
def ensureSymlink (fs : List String) (_src dst : String) : List String :=
  ensureDir fs dst

/-- String prefix test, computed on the character lists. -/
def strIsPrefixOf (p q : String) : Bool := List.isPrefixOf p.toList q.toList

/-- `remove`: recursive removal of a path — the path itself and every path
strictly below it disappear. -/
def removeRec (fs : List String) (p : String) : List String :=
  fs.filter (fun q => !(q == p || strIsPrefixOf (p ++ "/") q))

/-- The plugin package descriptor as the orchestrator consumes it: only
`name` is interpreted (for the symlink layout); the rest is forwarded
opaquely as JSON. -/
structure PluginPackage where
  name : String
  version : String
  rest : List (String × Json)

/-- The JSON object a `PluginPackage` crosses the boundary as. -/
def PluginPackage.toJson (pkg : PluginPackage) : Json :=
  Json.obj (("name", Json.str pkg.name) :: ("version", Json.str pkg.version) :: pkg.rest)

/-- One managed subprocess as the orchestrator sees it.  `sent` records
every frame pushed through `handle.send`; `fs` is the filesystem; `onread`
is the single resolver slot registered by `read()` (a promise id into
`promises`, where `none` marks a still-pending promise and `some f` a
promise fulfilled with frame `f`); `ondestroyedRegistered` and
`destroyResolved` model the resolver installed by `destroy()` and whether
its promise has been resolved. -/
structure Runnable where
  id : String
  componentDir : String
  installDir : String
  state : RState
  sent : List PluginProto
  fs : List String
  onread : Option Nat
  promises : List (Nat × Option PluginProto)
  ondestroyedRegistered : Bool
  destroyResolved : Bool

/-- The working directory of a Runnable, fixed by its constructor as
`componentDir/id`. -/
def Runnable.workingDir (r : Runnable) : String := pathJoin r.componentDir r.id

/-- `send(op, msg)`: stringify and push one frame through the channel. -/
def Runnable.send (r : Runnable) (op : PluginOperator) (msg : PluginMessage) : Runnable :=
  { r with sent := r.sent ++ [⟨op, msg⟩] }

/-- `read()`: create a fresh pending promise and park its resolver in the
single `onread` slot. -/
def Runnable.read (r : Runnable) (pid : Nat) : Runnable :=
  { r with onread := some pid, promises := r.promises ++ [(pid, none)] }

/-- Resolving a promise with a frame: a still-pending entry for this id is
fulfilled; resolving an already-settled promise is a no-op. -/
def resolvePromise : List (Nat × Option PluginProto) → Nat → PluginProto →
    List (Nat × Option PluginProto)
  | [], _, _ => []
  | (q, none) :: t, pid, v =>
    (if q = pid then (q, some v) else (q, none)) :: resolvePromise t pid v
  | (q, some w) :: t, pid, v => (q, some w) :: resolvePromise t pid v

/-- `handleMessage`: parse the inbound payload and, when a resolver has
been registered by `read()`, invoke it on the frame; with no resolver the
frame is dropped. -/
def Runnable.handleMessage (r : Runnable) (msg : PluginProto) : Runnable :=
  match r.onread with
  | some pid => { r with promises := resolvePromise r.promises pid msg }
  | none => r

/-- `waitOn(op)`: repeatedly read inbound frames, discarding any whose
operator differs from `op`, until one matches; its message is returned.
The inbound stream is the list of frames that will be delivered; an
exhausted stream means the call suspends forever (`none`). -/
def waitOn (op : PluginOperator) : List PluginProto → Option PluginMessage
  | [] => none
  | f :: rest => if f.op = op then some f.message else waitOn op rest

/-- `sendAndWait(op, msg)`: send the frame, wait on the same operator, and
demand that the response's event is exactly `pong`, else fail with the
protocol error.  `none` models a call that suspends forever. -/
def Runnable.sendAndWait (r : Runnable) (op : PluginOperator) (msg : PluginMessage)
    (inbound : List PluginProto) : Option (Runnable × Except String PluginMessage) :=
  let r1 := r.send op msg
  match waitOn op inbound with
  | none => none
  | some resp =>
    if resp.event = "pong" then
      some (r1, Except.ok resp)
    else
      some (r1, Except.error "invalid response because the event is not \"pong\".")

/-- `return id ? new RunnableResponse(id) : null` at the end of `start`:
the first response param, when truthy, is wrapped into a result
reference; otherwise the call resolves to `null` (`none`). -/
def startResult (msg : PluginMessage) : Option Json :=
  match msg.params.head? with
  | some v => if jsTruthy v then some (RunnableResponse v) else none
  | none => none

/-- `start(pkg, ...args)`: reject unless `idle` (throwing the busy error
with no other effect), else go `busy`, prepare the component directory and
the plugin symlink, send `WRITE`/`start` with `[pkg, ...args]`, wait for
the matching response, return to `idle` and deliver the result reference
(or `null`).  A protocol error propagates with the state still `busy`,
exactly as the thrown exception skips the `this.state = 'idle'` line. -/
def Runnable.start (r : Runnable) (pkg : PluginPackage) (args : List Json)
    (inbound : List PluginProto) : Option (Runnable × Except String (Option Json)) :=
  if r.state ≠ RState.idle then
    some (r, Except.error ("the runnable \"" ++ r.id ++ "\" is busy or not ready now"))
  else
    let r1 : Runnable := { r with state := RState.busy }
    let compPath := pathJoin r1.componentDir r1.id
    let fs1 := ensureDir r1.fs compPath
    let fs2 := ensureDir fs1 (compPath ++ "/node_modules")
    let nmDir := parseDir pkg.name
    let fs3 := if nmDir = "" then fs2 else ensureDir fs2 (compPath ++ "/node_modules/" ++ nmDir)
    let fs4 := ensureSymlink fs3 (pathJoin (pathJoin r1.installDir "node_modules") pkg.name)
      (compPath ++ "/node_modules/" ++ pkg.name)
    let r2 : Runnable := { r1 with fs := fs4 }
    match r2.sendAndWait PluginOperator.WRITE ⟨"start", pkg.toJson :: args⟩ inbound with
    | none => none
    | some (r3, Except.error e) => some (r3, Except.error e)
    | some (r3, Except.ok resp) =>
      some ({ r3 with state := RState.idle }, Except.ok (startResult resp))

/-- `valueOf(resp)`: send a `READ` request carrying the reference, wait
for the `pong`, demand exactly one param and return it parsed.  Since
serialization is modelled as the identity on the JSON domain,
`JSON.parse(msg.params[0])` is the param itself. -/
def Runnable.valueOf (r : Runnable) (resp : Json) (inbound : List PluginProto) :
    Option (Runnable × Except String Json) :=
  match r.sendAndWait PluginOperator.READ ⟨"deserialize response", [resp]⟩ inbound with
  | none => none
  | some (r1, Except.error e) => some (r1, Except.error e)
  | some (r1, Except.ok msg) =>
    match msg.params with
    | [v] => some (r1, Except.ok v)
    | _ => some (r1, Except.error "invalid response because the params is invalid.")

/-- `destroy()`: fire `WRITE`/`destroy` without waiting for any response
and install the `ondestroyed` resolver; its promise is resolved only by
`afterDestroy`. -/
def Runnable.destroy (r : Runnable) : Runnable :=
  let r1 := r.send PluginOperator.WRITE ⟨"destroy", []⟩
  { r1 with ondestroyedRegistered := true }

/-- `afterDestroy()`: fired on the subprocess-exit notification; removes
the working directory `componentDir/id` recursively and resolves the
pending `destroy()` promise when one was registered. -/
def Runnable.afterDestroy (r : Runnable) : Runnable :=
  let r1 : Runnable := { r with fs := removeRec r.fs (pathJoin r.componentDir r.id) }
  if r1.ondestroyedRegistered then { r1 with destroyResolved := true } else r1

/-! ## Specification-side predicates -/

/-- The Result Reference shape, as the spec describes it: an object whose
`__flag__` property is the runnable-result marker string. -/
def isRefShape (arg : Json) : Bool :=
  match objGet arg "__flag__" with
  | some (Json.str s) => s == runnableResultFlag
  | _ => false

/-- The result-table key named by a reference-shaped argument: its `id`
property coerced to a property key. -/
def refIdKey (arg : Json) : String := jsToKey (objGet arg "id")

/-! ## Concrete fixtures used by witnesses and scenarios -/

/-- A bootstrapped, idle Runnable with an empty transcript. -/
def idleRunnable : Runnable :=
  ⟨"r-1", "comp", "inst", RState.idle, [], [], none, [], false, false⟩

/-- A Runnable whose single in-flight call makes it `busy`. -/
def busyRunnable : Runnable :=
  ⟨"r-1", "comp", "inst", RState.busy, [], [], none, [], false, false⟩

/-- A sample plugin package descriptor. -/
def pkgA : PluginPackage := ⟨"plugin-a", "1.0.0", []⟩

/-- A Runnable about to be destroyed: its filesystem holds its working
directory `comp/r-9`, a path below it, and an unrelated path. -/
def destroyedRunnable : Runnable :=
  ⟨"r-9", "comp", "inst", RState.idle, [], ["comp/r-9", "comp/r-9/node_modules", "other"],
    none, [], false, false⟩

/-- A sample inbound response frame. -/
def pongProto : PluginProto := ⟨PluginOperator.WRITE, ⟨"pong", []⟩⟩

/-- A Runnable with a pending `read()`: the slot points at promise `0`,
while promise `1` is some older pending promise. -/
def pendingReadRunnable : Runnable :=
  ⟨"r-2", "comp", "inst", RState.busy, [], [], some 0, [(0, none), (1, none)], false, false⟩

/-! ## Supporting lemmas -/

/-- A successful association-list lookup exhibits a member of the list. -/
theorem lookup_mem {α β : Type} [BEq α] [LawfulBEq α] {k : α} {v : β}
    {l : List (α × β)} (h : List.lookup k l = some v) : (k, v) ∈ l := by
  induction l with
  | nil => simp [List.lookup] at h
  | cons a t ih =>
    obtain ⟨a1, a2⟩ := a
    rw [List.lookup] at h
    cases hk : k == a1 with
    | true =>
      rw [hk] at h
      have hv : a2 = v := by simpa using h
      have hk2 : k = a1 := eq_of_beq hk
      subst hv
      subst hk2
      exact List.mem_cons_self _ _
    | false =>
      rw [hk] at h
      exact List.mem_cons_of_mem _ (ih h)

/-- Frames whose operator differs from the awaited one are discarded by
`waitOn`; the first matching frame's message is returned. -/
theorem waitOn_append (op : PluginOperator) (pre : List PluginProto) (f : PluginProto)
    (post : List PluginProto) (hpre : ∀ g ∈ pre, g.op ≠ op) (hf : f.op = op) :
    waitOn op (pre ++ f :: post) = some f.message := by
  induction pre with
  | nil => simp [waitOn, hf]
  | cons g rest ih =>
    have hg : g.op ≠ op := hpre g (by simp)
    rw [List.cons_append, waitOn, if_neg hg]
    exact ih (fun x hx => hpre x (List.mem_cons_of_mem _ hx))

/-- Resolving a promise id with no pending entry changes nothing. -/
theorem resolvePromise_of_not_pending (ps : List (Nat × Option PluginProto)) (pid : Nat)
    (v : PluginProto) (h : (pid, (none : Option PluginProto)) ∉ ps) :
    resolvePromise ps pid v = ps := by
  induction ps with
  | nil => rfl
  | cons e t ih =>
    have he : e ≠ (pid, none) := fun hh => h (by simp [hh])
    have ht : (pid, (none : Option PluginProto)) ∉ t := fun hh => h (by simp [hh])
    obtain ⟨q, res⟩ := e
    cases res with
    | none =>
      have hq : q ≠ pid := fun hh => he (by rw [hh])
      rw [resolvePromise, if_neg hq, ih ht]
    | some w =>
      rw [resolvePromise, ih ht]

/-- Resolving the promise for `pid` does not touch entries of any other
promise id. -/
theorem mem_resolvePromise_of_ne (ps : List (Nat × Option PluginProto)) (pid q : Nat)
    (res : Option PluginProto) (v : PluginProto) (h : q ≠ pid) :
    ((q, res) ∈ resolvePromise ps pid v) ↔ ((q, res) ∈ ps) := by
  induction ps with
  | nil => simp [resolvePromise]
  | cons e t ih =>
    obtain ⟨a, b⟩ := e
    cases b with
    | none =>
      by_cases ha : a = pid
      · subst ha
        rw [resolvePromise, if_pos rfl]
        constructor
        · intro hm
          rcases List.mem_cons.mp hm with hm | hm
          · exact absurd (congrArg Prod.fst hm) h
          · exact List.mem_cons_of_mem _ (ih.mp hm)
        · intro hm
          rcases List.mem_cons.mp hm with hm | hm
          · exact absurd (congrArg Prod.fst hm) h
          · exact List.mem_cons_of_mem _ (ih.mpr hm)
      · rw [resolvePromise, if_neg ha]
        constructor
        · intro hm
          rcases List.mem_cons.mp hm with hm | hm
          · exact hm ▸ List.mem_cons_self _ _
          · exact List.mem_cons_of_mem _ (ih.mp hm)
        · intro hm
          rcases List.mem_cons.mp hm with hm | hm
          · exact hm ▸ List.mem_cons_self _ _
          · exact List.mem_cons_of_mem _ (ih.mpr hm)
    | some w =>
      rw [resolvePromise]
      constructor
      · intro hm
        rcases List.mem_cons.mp hm with hm | hm
        · exact hm ▸ List.mem_cons_self _ _
        · exact List.mem_cons_of_mem _ (ih.mp hm)
      · intro hm
        rcases List.mem_cons.mp hm with hm | hm
        · exact hm ▸ List.mem_cons_self _ _
        · exact List.mem_cons_of_mem _ (ih.mpr hm)

/-- Membership after a recursive removal: survivors are exactly the paths
that existed before and are neither the removed path nor below it. -/
theorem mem_removeRec (fs : List String) (p q : String) :
    q ∈ removeRec fs p ↔ (q ∈ fs ∧ q ≠ p ∧ strIsPrefixOf (p ++ "/") q = false) := by
  simp only [removeRec, List.mem_filter, Bool.not_eq_true', Bool.or_eq_false_iff,
    beq_eq_false_iff_ne, ne_eq]

/-- The result table only ever stores truthy values: one dispatch step of
the endpoint preserves table-wide truthiness. -/
theorem handleFrame_preserves_truthy
    (load : Except String (List Json → Except String (Option Json))) (freshId : String)
    (st : ClientState) (proto : PluginProto)
    (h : ∀ p ∈ st.previousResults, jsTruthy p.snd = true) :
    ∀ p ∈ (handleFrame load freshId st proto).state.previousResults, jsTruthy p.snd = true := by
  obtain ⟨op, msg⟩ := proto
  cases op with
  | START =>
    dsimp only [handleFrame, handleStart]
    split
    all_goals try exact h
    split
    · exact h
    · exact h
  | WRITE =>
    dsimp only [handleFrame, handleWrite]
    by_cases hev : msg.event = "start"
    · rw [if_pos hev]
      rcases hr : runStart load st.previousResults msg.params with err | resp
      · exact h
      · rcases resp with _ | v
        · exact h
        · dsimp only
          by_cases hv : jsTruthy v
          · rw [if_pos hv]
            intro p hp
            rcases List.mem_cons.mp hp with hp | hp
            · rw [hp]
              exact hv
            · exact h p hp
          · rw [if_neg hv]
            exact h
    · rw [if_neg hev]
      by_cases hdes : msg.event = "destroy"
      · rw [if_pos hdes]
        exact h
      · rw [if_neg hdes]
        exact h
  | READ => exact h
  | COMPILE => exact h

/-! ## Claim theorems -/

/-- Claim C1.  The spec states that the subprocess endpoint answers every
`READ` request by resolving the carried Result Reference and replying
`pong` with the JSON-encoded value, or fails the call.  The code does
neither: the `READ` handler is an empty stub, so every `READ` frame
leaves the endpoint state unchanged, sends no reply, logs nothing and
does not fail — the requesting `valueOf` is left suspended forever. -/
theorem claim1_read_handler_is_noop
    (load : Except String (List Json → Except String (Option Json))) (freshId : String)
    (st : ClientState) (proto : PluginProto) (h : proto.op = PluginOperator.READ) :
    handleFrame load freshId st proto = ⟨st, [], [], false⟩ := by
  obtain ⟨op, msg⟩ := proto
  cases h
  rfl

/-- Witness for C1: a well-formed `READ` request carrying a reference
whose id is present in the result table still gets no answer. -/
theorem claim1_read_witness :
    handleFrame (Except.ok fun _ => Except.ok none) "rid"
      ⟨some "cid", [("k", Json.num 1)]⟩
      ⟨PluginOperator.READ, ⟨"deserialize response", [RunnableResponse (Json.str "k")]⟩⟩ =
      ⟨⟨some "cid", [("k", Json.num 1)]⟩, [], [], false⟩ :=
  claim1_read_handler_is_noop (Except.ok fun _ => Except.ok none) "rid"
    ⟨some "cid", [("k", Json.num 1)]⟩
    ⟨PluginOperator.READ, ⟨"deserialize response", [RunnableResponse (Json.str "k")]⟩⟩ rfl

/-- Claim C2, the spec scenario `start(pluginB)` → reference → `valueOf`.
The first half holds: a plugin returning the truthy value `{y: 2}` makes
the endpoint store it under the fresh id and makes `start()` return a
non-null Result Reference.  The second half fails on the code: `valueOf`
sends a `READ` request, the endpoint's `READ` handler answers nothing, so
`valueOf` never returns the round-tripped value — it suspends forever
(`none`), instead of producing `{y: 2}`. -/
theorem claim2_valueof_scenario :
    handleFrame (Except.ok fun _ => Except.ok (some (Json.obj [("y", Json.num 2)]))) "rid-2"
      ⟨some "r-1", []⟩
      ⟨PluginOperator.WRITE, ⟨"start", [Json.obj [("name", Json.str "plugin-b")]]⟩⟩ =
      ⟨⟨some "r-1", [("rid-2", Json.obj [("y", Json.num 2)])]⟩,
        [recvFrame PluginOperator.WRITE [Json.str "rid-2"]], [], false⟩ ∧
    (idleRunnable.start ⟨"plugin-b", "1.0.0", []⟩ []
        [recvFrame PluginOperator.WRITE [Json.str "rid-2"]]).map Prod.snd =
      some (Except.ok (some (RunnableResponse (Json.str "rid-2")))) ∧
    handleFrame (Except.ok fun _ => Except.ok (some (Json.obj [("y", Json.num 2)]))) "rid-3"
      ⟨some "r-1", [("rid-2", Json.obj [("y", Json.num 2)])]⟩
      ⟨PluginOperator.READ, ⟨"deserialize response", [RunnableResponse (Json.str "rid-2")]⟩⟩ =
      ⟨⟨some "r-1", [("rid-2", Json.obj [("y", Json.num 2)])]⟩, [], [], false⟩ ∧
    idleRunnable.valueOf (RunnableResponse (Json.str "rid-2")) [] = none :=
  ⟨rfl, rfl, rfl, rfl⟩

/-- Claim C3.  `start()` on a Runnable whose state is not `idle` throws
the busy error before doing anything else: the result carries the
Runnable unchanged — same state, same transcript of sent frames, same
filesystem — and the error message of the source. -/
theorem claim3_busy_start_rejected (r : Runnable) (pkg : PluginPackage) (args : List Json)
    (inbound : List PluginProto) (h : r.state ≠ RState.idle) :
    r.start pkg args inbound =
      some (r, Except.error ("the runnable \"" ++ r.id ++ "\" is busy or not ready now")) := by
  rw [Runnable.start, if_pos h]

/-- Witness for C3: a `busy` Runnable with an empty transcript rejects
`start` and is returned untouched (in particular no frame was sent). -/
theorem claim3_busy_witness :
    busyRunnable.start pkgA [] [] =
      some (busyRunnable,
        Except.error ("the runnable \"" ++ busyRunnable.id ++ "\" is busy or not ready now")) :=
  claim3_busy_start_rejected busyRunnable pkgA [] [] (by decide)

/-- Claim C4.  When the plugin invocation of a `WRITE`/`start` request
(including plugin loading and argument deserialization, the whole `try`
block) raises an error, the endpoint logs it and does nothing else: no
reply frame is sent, the process does not exit, and the state — in
particular the Result Table — is exactly the state before the request. -/
theorem claim4_plugin_error_no_reply
    (load : Except String (List Json → Except String (Option Json))) (freshId : String)
    (st : ClientState) (proto : PluginProto) (err : String)
    (hop : proto.op = PluginOperator.WRITE) (hev : proto.message.event = "start")
    (herr : runStart load st.previousResults proto.message.params = Except.error err) :
    handleFrame load freshId st proto = ⟨st, [], ["occurring an error: " ++ err], false⟩ := by
  obtain ⟨op, msg⟩ := proto
  cases hop
  dsimp only [handleFrame, handleWrite] at hev herr ⊢
  rw [if_pos hev, herr]

/-- Witness for C4: a plugin that throws `boom` is logged; the table stays
empty and nothing is sent back. -/
theorem claim4_error_witness :
    handleFrame (Except.ok fun _ => Except.error "boom") "rid-9" ⟨some "cid", []⟩
      ⟨PluginOperator.WRITE, ⟨"start", [Json.obj [("name", Json.str "p")]]⟩⟩ =
      ⟨⟨some "cid", []⟩, [], ["occurring an error: " ++ "boom"], false⟩ :=
  claim4_plugin_error_no_reply (Except.ok fun _ => Except.error "boom") "rid-9"
    ⟨some "cid", []⟩ ⟨PluginOperator.WRITE, ⟨"start", [Json.obj [("name", Json.str "p")]]⟩⟩
    "boom" rfl rfl rfl

/-- Counterexample for C5, at two concrete inputs.  First, the claim
promises that an argument not matching the Result Reference shape is
passed to the plugin literally: a `null` argument does not match the
shape, yet resolution does not pass it through — the property access
`arg.__flag__` throws a `TypeError` and the invocation is aborted through
the catch path (the plugin, here one that would return `1`, is never
called; nothing is replied).  Second, the claim promises that a
shape-matching argument whose id is absent from the Result Table is
passed through literally: for the id `toString` on the empty table the
property read `previousResults[arg.id]` instead hits the truthy inherited
`Object.prototype.toString`, and the plugin — here one echoing its
argument list — is invoked with that inherited member, not with the
literal argument. -/
theorem claim5_resolution_counterexample :
    isRefShape Json.null = false ∧
    deserializeArg [] Json.null =
      Except.error ("TypeError: Cannot read property of null: " ++ "__flag__") ∧
    handleFrame (Except.ok fun _ => Except.ok (some (Json.num 1))) "rid-5"
      ⟨some "cid", []⟩
      ⟨PluginOperator.WRITE, ⟨"start", [Json.obj [("name", Json.str "p")], Json.null]⟩⟩ =
      ⟨⟨some "cid", []⟩, [],
        ["occurring an error: " ++ ("TypeError: Cannot read property of null: " ++ "__flag__")],
        false⟩ ∧
    isRefShape (RunnableResponse (Json.str "toString")) = true ∧
    List.lookup (refIdKey (RunnableResponse (Json.str "toString")))
        ([] : List (String × Json)) = none ∧
    deserializeArg [] (RunnableResponse (Json.str "toString")) =
      Except.ok (Json.native "toString") ∧
    Json.native "toString" ≠ RunnableResponse (Json.str "toString") ∧
    handleFrame (Except.ok fun rargs => Except.ok (some (Json.arr rargs))) "rid-6"
      ⟨some "cid", []⟩
      ⟨PluginOperator.WRITE,
        ⟨"start", [Json.obj [("name", Json.str "p")], RunnableResponse (Json.str "toString")]⟩⟩ =
      ⟨⟨some "cid", [("rid-6", Json.arr [Json.native "toString"])]⟩,
        [recvFrame PluginOperator.WRITE [Json.str "rid-6"]], [], false⟩ :=
  ⟨rfl, rfl, rfl, rfl, rfl, rfl, fun hh => Json.noConfusion hh, rfl⟩

/-- Every inherited `Object.prototype` member is truthy. -/
theorem objectProtoMember_truthy (k : String) (w : Json)
    (h : objectProtoMember k = some w) : jsTruthy w = true := by
  rw [objectProtoMember] at h
  by_cases hk : k ∈ ["constructor", "hasOwnProperty", "isPrototypeOf", "propertyIsEnumerable",
      "toLocaleString", "toString", "valueOf", "__defineGetter__", "__defineSetter__",
      "__lookupGetter__", "__lookupSetter__", "__proto__"]
  · rw [if_pos hk] at h
    have hw : Json.native k = w := by simpa using h
    rw [← hw]
    rfl
  · rw [if_neg hk] at h
    exact Option.noConfusion h

/-- Closed-form behavior of `deserializeArg` on any non-`null` argument:
a shape mismatch passes the argument through; a shape match resolves the
id through the table's property read (own entry first, then the prototype
chain), replacing the argument when the value found is truthy. -/
theorem deserializeArg_eq (prev : List (String × Json)) (arg : Json)
    (hnull : arg ≠ Json.null) :
    deserializeArg prev arg = Except.ok
      (cond (isRefShape arg)
        (match tableGet prev (refIdKey arg) with
          | some v => cond (jsTruthy v) v arg
          | none => arg)
        arg) := by
  cases arg with
  | null => exact absurd rfl hnull
  | bool b => rfl
  | num n => rfl
  | str s => rfl
  | arr xs => rfl
  | native s => rfl
  | obj fields =>
    rw [deserializeArg]
    dsimp only [jsGetProp, isRefShape, refIdKey, objGet]
    rcases hf : fields.lookup "__flag__" with _ | fv
    · rfl
    · cases fv with
      | null => rfl
      | bool b => rfl
      | num n => rfl
      | arr xs => rfl
      | obj o => rfl
      | native s => rfl
      | str s =>
        by_cases hs : s = runnableResultFlag
        · subst hs
          dsimp only
          rw [if_pos rfl]
          simp only [beq_self_eq_true, cond_true]
          rcases hid : tableGet prev (jsToKey (fields.lookup "id")) with _ | v
          · rfl
          · dsimp only
            by_cases htr : jsTruthy v
            · rw [if_pos htr, htr, cond_true]
            · have htr2 : jsTruthy v = false := (Bool.not_eq_true (jsTruthy v)) ▸ htr
              rw [if_neg htr, htr2, cond_false]
        · dsimp only
          rw [if_neg hs, beq_eq_false_iff_ne.mpr hs, cond_false]

/-- Claim C5 as amended: for every non-`null` argument of a `WRITE`/`start`
request (on any table reachable by the endpoint, i.e. one storing only
truthy values, cf. `handleFrame_preserves_truthy`): an argument matching
the Result Reference shape whose id has an own entry in the table
resolves to the stored value; one whose id misses the table but names an
inherited `Object.prototype` member resolves to that (truthy) inherited
member instead of passing through; one whose id finds nothing at all
passes through literally; and one not matching the shape passes through
literally — so resolution never fails on a cache miss.  (`null`
arguments instead throw, see the counterexample.) -/
theorem claim5_arg_resolution (prev : List (String × Json)) (arg : Json)
    (hnull : arg ≠ Json.null)
    (htable : ∀ p ∈ prev, jsTruthy p.snd = true) :
    (∀ v, isRefShape arg = true → List.lookup (refIdKey arg) prev = some v →
      deserializeArg prev arg = Except.ok v) ∧
    (∀ w, isRefShape arg = true → List.lookup (refIdKey arg) prev = none →
      objectProtoMember (refIdKey arg) = some w →
      deserializeArg prev arg = Except.ok w) ∧
    (isRefShape arg = true → List.lookup (refIdKey arg) prev = none →
      objectProtoMember (refIdKey arg) = none →
      deserializeArg prev arg = Except.ok arg) ∧
    (isRefShape arg = false → deserializeArg prev arg = Except.ok arg) := by
  refine ⟨?_, ?_, ?_, ?_⟩
  · intro v hshape hlook
    have htr : jsTruthy v = true := htable (refIdKey arg, v) (lookup_mem hlook)
    have hget : tableGet prev (refIdKey arg) = some v := by
      rw [tableGet, hlook]
    rw [deserializeArg_eq prev arg hnull, hshape, cond_true, hget]
    dsimp only
    rw [htr, cond_true]
  · intro w hshape hlook hproto
    have htr : jsTruthy w = true := objectProtoMember_truthy (refIdKey arg) w hproto
    have hget : tableGet prev (refIdKey arg) = some w := by
      rw [tableGet, hlook, hproto]
    rw [deserializeArg_eq prev arg hnull, hshape, cond_true, hget]
    dsimp only
    rw [htr, cond_true]
  · intro hshape hlook hproto
    have hget : tableGet prev (refIdKey arg) = none := by
      rw [tableGet, hlook, hproto]
    rw [deserializeArg_eq prev arg hnull, hshape, cond_true, hget]
  · intro hshape
    rw [deserializeArg_eq prev arg hnull, hshape, cond_false]

/-- Witness for C5: on the table `{k ↦ 7}`, a reference to `k` resolves to
the stored `7`; a reference to the absent id `toString` resolves to the
inherited `Object.prototype.toString`; a reference to the absent id `m`
(no prototype member either) passes through; and a plain string argument
passes through. -/
theorem claim5_resolution_witness :
    deserializeArg [("k", Json.num 7)] (RunnableResponse (Json.str "k")) =
      Except.ok (Json.num 7) ∧
    deserializeArg [("k", Json.num 7)] (RunnableResponse (Json.str "toString")) =
      Except.ok (Json.native "toString") ∧
    deserializeArg [("k", Json.num 7)] (RunnableResponse (Json.str "m")) =
      Except.ok (RunnableResponse (Json.str "m")) ∧
    deserializeArg [("k", Json.num 7)] (Json.str "plain") = Except.ok (Json.str "plain") := by
  have htable : ∀ p ∈ [(("k" : String), Json.num 7)], jsTruthy p.snd = true := by
    intro p hp
    rw [List.mem_singleton] at hp
    rw [hp]
    rfl
  have hnull1 : RunnableResponse (Json.str "k") ≠ Json.null := fun hh => Json.noConfusion hh
  have hnull2 : RunnableResponse (Json.str "toString") ≠ Json.null :=
    fun hh => Json.noConfusion hh
  have hnull3 : RunnableResponse (Json.str "m") ≠ Json.null := fun hh => Json.noConfusion hh
  have hnull4 : Json.str "plain" ≠ Json.null := fun hh => Json.noConfusion hh
  refine ⟨?_, ?_, ?_, ?_⟩
  · exact (claim5_arg_resolution [("k", Json.num 7)] (RunnableResponse (Json.str "k"))
      hnull1 htable).1 (Json.num 7) rfl rfl
  · exact (claim5_arg_resolution [("k", Json.num 7)] (RunnableResponse (Json.str "toString"))
      hnull2 htable).2.1 (Json.native "toString") rfl rfl rfl
  · exact (claim5_arg_resolution [("k", Json.num 7)] (RunnableResponse (Json.str "m"))
      hnull3 htable).2.2.1 rfl rfl rfl
  · exact (claim5_arg_resolution [("k", Json.num 7)] (Json.str "plain")
      hnull4 htable).2.2.2 rfl

/-- Claim C6.  `sendAndWait(op, msg)` sends the frame and then discards
every inbound frame whose operator differs from `op`; the first frame with
operator `op` decides the call: its message is returned when its event is
exactly `pong`, otherwise the call fails with the protocol error.  The
returned Runnable is the sender state (`r.send op msg`) either way. -/
theorem claim6_sendAndWait_matching (r : Runnable) (op : PluginOperator) (msg : PluginMessage)
    (pre : List PluginProto) (f : PluginProto) (post : List PluginProto)
    (hpre : ∀ g ∈ pre, g.op ≠ op) (hf : f.op = op) :
    r.sendAndWait op msg (pre ++ f :: post) =
      some (r.send op msg,
        if f.message.event = "pong" then Except.ok f.message
        else Except.error "invalid response because the event is not \"pong\".") := by
  rw [Runnable.sendAndWait, waitOn_append op pre f post hpre hf]
  dsimp only
  by_cases h : f.message.event = "pong"
  · rw [if_pos h, if_pos h]
  · rw [if_neg h, if_neg h]

/-- Witness for C6: a stray `READ` pong is discarded; the first `WRITE`
frame answers the `WRITE` request. -/
theorem claim6_matching_witness :
    idleRunnable.sendAndWait PluginOperator.WRITE ⟨"start", []⟩
      [⟨PluginOperator.READ, ⟨"pong", []⟩⟩, ⟨PluginOperator.WRITE, ⟨"pong", [Json.str "x"]⟩⟩] =
      some (idleRunnable.send PluginOperator.WRITE ⟨"start", []⟩,
        Except.ok ⟨"pong", [Json.str "x"]⟩) := by
  have h := claim6_sendAndWait_matching idleRunnable PluginOperator.WRITE ⟨"start", []⟩
    [⟨PluginOperator.READ, ⟨"pong", []⟩⟩] ⟨PluginOperator.WRITE, ⟨"pong", [Json.str "x"]⟩⟩ []
    (by intro g hg; rw [List.mem_singleton] at hg; rw [hg]; decide) rfl
  simpa using h

/-- Claim C7 counterexample.  The claim says no `WRITE` frame can be
processed before the handshake has set the client id.  Here the endpoint
is in its pre-handshake state (`clientId` unset, empty table) and still
processes a `WRITE`/`start` frame fully: the plugin runs, its result is
stored under the fresh id, and a `pong` reply is sent. -/
theorem claim7_write_before_handshake_counterexample :
    handleFrame (Except.ok fun _ => Except.ok (some (Json.str "out"))) "rid-7"
      ⟨none, []⟩ ⟨PluginOperator.WRITE, ⟨"start", [Json.obj [("name", Json.str "p")]]⟩⟩ =
      ⟨⟨none, [("rid-7", Json.str "out")]⟩,
        [recvFrame PluginOperator.WRITE [Json.str "rid-7"]], [], false⟩ :=
  rfl

/-- Claim C7 as amended: the endpoint dispatches strictly by operator and
does not gate `WRITE` on the handshake: handling of a `WRITE` frame is
entirely independent of whether `clientId` has been set — the frames
sent, the log, the exit flag and the resulting table are identical in the
pre-handshake state and after any handshake, and the handler never
touches `clientId`.  In particular `WRITE` requests are processed in the
pre-handshake state. -/
theorem claim7_write_independent_of_clientId
    (load : Except String (List Json → Except String (Option Json))) (freshId : String)
    (prev : List (String × Json)) (cid : String) (proto : PluginProto)
    (hop : proto.op = PluginOperator.WRITE) :
    (handleFrame load freshId ⟨none, prev⟩ proto).sent =
      (handleFrame load freshId ⟨some cid, prev⟩ proto).sent ∧
    (handleFrame load freshId ⟨none, prev⟩ proto).logged =
      (handleFrame load freshId ⟨some cid, prev⟩ proto).logged ∧
    (handleFrame load freshId ⟨none, prev⟩ proto).exited =
      (handleFrame load freshId ⟨some cid, prev⟩ proto).exited ∧
    (handleFrame load freshId ⟨none, prev⟩ proto).state.previousResults =
      (handleFrame load freshId ⟨some cid, prev⟩ proto).state.previousResults ∧
    (handleFrame load freshId ⟨none, prev⟩ proto).state.clientId = none ∧
    (handleFrame load freshId ⟨some cid, prev⟩ proto).state.clientId = some cid := by
  obtain ⟨op, msg⟩ := proto
  cases hop
  dsimp only [handleFrame, handleWrite]
  by_cases hev : msg.event = "start"
  · rw [if_pos hev, if_pos hev]
    rcases hr : runStart load prev msg.params with err | resp
    · exact ⟨rfl, rfl, rfl, rfl, rfl, rfl⟩
    · rcases resp with _ | v
      · exact ⟨rfl, rfl, rfl, rfl, rfl, rfl⟩
      · dsimp only
        by_cases hv : jsTruthy v
        · rw [if_pos hv, if_pos hv]
          exact ⟨rfl, rfl, rfl, rfl, rfl, rfl⟩
        · rw [if_neg hv, if_neg hv]
          exact ⟨rfl, rfl, rfl, rfl, rfl, rfl⟩
  · rw [if_neg hev, if_neg hev]
    by_cases hdes : msg.event = "destroy"
    · rw [if_pos hdes, if_pos hdes]
      exact ⟨rfl, rfl, rfl, rfl, rfl, rfl⟩
    · rw [if_neg hdes, if_neg hdes]
      exact ⟨rfl, rfl, rfl, rfl, rfl, rfl⟩

/-- Witness for C7 (amended): concrete pre- and post-handshake states
handle the same `WRITE`/`start` frame with identical observable effects. -/
theorem claim7_independence_witness :
    (handleFrame (Except.ok fun _ => Except.ok (some (Json.str "out"))) "rid-8"
        ⟨none, []⟩ ⟨PluginOperator.WRITE, ⟨"start", [Json.obj [("name", Json.str "p")]]⟩⟩).sent =
      (handleFrame (Except.ok fun _ => Except.ok (some (Json.str "out"))) "rid-8"
        ⟨some "cid", []⟩
        ⟨PluginOperator.WRITE, ⟨"start", [Json.obj [("name", Json.str "p")]]⟩⟩).sent ∧
    (handleFrame (Except.ok fun _ => Except.ok (some (Json.str "out"))) "rid-8"
        ⟨none, []⟩
        ⟨PluginOperator.WRITE, ⟨"start", [Json.obj [("name", Json.str "p")]]⟩⟩).state.clientId =
      none :=
  ⟨(claim7_write_independent_of_clientId (Except.ok fun _ => Except.ok (some (Json.str "out")))
      "rid-8" [] "cid" ⟨PluginOperator.WRITE, ⟨"start", [Json.obj [("name", Json.str "p")]]⟩⟩
      rfl).1,
   (claim7_write_independent_of_clientId (Except.ok fun _ => Except.ok (some (Json.str "out")))
      "rid-8" [] "cid" ⟨PluginOperator.WRITE, ⟨"start", [Json.obj [("name", Json.str "p")]]⟩⟩
      rfl).2.2.2.2.1⟩

/-- Claim C8.  A plugin invocation that completes with an absent or falsy
value makes the endpoint reply `pong` with no params and leave its state
unchanged; feeding that reply to an idle orchestrator `start()` makes the
call resolve to `null` rather than a Result Reference. -/
theorem claim8_empty_return_null
    (load : Except String (List Json → Except String (Option Json))) (freshId : String)
    (st : ClientState) (proto : PluginProto) (ret : Option Json)
    (hop : proto.op = PluginOperator.WRITE) (hev : proto.message.event = "start")
    (hret : runStart load st.previousResults proto.message.params = Except.ok ret)
    (hfalsy : jsTruthyOpt ret = false) :
    (handleFrame load freshId st proto).sent = [recvFrame PluginOperator.WRITE []] ∧
    (handleFrame load freshId st proto).state = st ∧
    ∀ (r : Runnable) (pkg : PluginPackage) (args : List Json),
      r.state = RState.idle →
      (r.start pkg args (handleFrame load freshId st proto).sent).map Prod.snd =
        some (Except.ok none) := by
  obtain ⟨op, msg⟩ := proto
  cases hop
  dsimp only [handleFrame, handleWrite] at hev hret ⊢
  rw [if_pos hev, hret]
  rcases ret with _ | v
  · refine ⟨rfl, rfl, ?_⟩
    intro r pkg args hidle
    rw [Runnable.start, if_neg (fun hh => hh hidle)]
    rfl
  · have hv : jsTruthy v = false := hfalsy
    dsimp only
    rw [hv, if_neg Bool.false_ne_true]
    refine ⟨rfl, rfl, ?_⟩
    intro r pkg args hidle
    rw [Runnable.start, if_neg (fun hh => hh hidle)]
    rfl

/-- Witness for C8: a plugin returning `undefined` yields the no-param
`pong`, and an idle Runnable's `start` fed with that reply resolves to
`null`. -/
theorem claim8_null_witness :
    (handleFrame (Except.ok fun _ => Except.ok none) "rid-4" ⟨some "cid", []⟩
        ⟨PluginOperator.WRITE, ⟨"start", [Json.obj [("name", Json.str "p")]]⟩⟩).sent =
      [recvFrame PluginOperator.WRITE []] ∧
    (idleRunnable.start pkgA []
        (handleFrame (Except.ok fun _ => Except.ok none) "rid-4" ⟨some "cid", []⟩
          ⟨PluginOperator.WRITE, ⟨"start", [Json.obj [("name", Json.str "p")]]⟩⟩).sent).map
        Prod.snd =
      some (Except.ok none) := by
  have h := claim8_empty_return_null (Except.ok fun _ => Except.ok none) "rid-4"
    ⟨some "cid", []⟩ ⟨PluginOperator.WRITE, ⟨"start", [Json.obj [("name", Json.str "p")]]⟩⟩
    none rfl rfl rfl rfl
  exact ⟨h.1, h.2.2 idleRunnable pkgA [] rfl⟩

/-- Claim C9.  `destroy()` appends exactly the `WRITE`/`destroy` frame to
the transcript without consuming any inbound frame (it takes no inbound
stream at all) and leaves its promise pending; only the exit notification
handler `afterDestroy` resolves it, and when it has run the working
directory `componentDir/id` and everything below it are gone from the
filesystem, nothing else having been removed. -/
theorem claim9_destroy_removes_workingdir (r : Runnable)
    (h : r.destroyResolved = false) :
    r.destroy.sent = r.sent ++ [⟨PluginOperator.WRITE, ⟨"destroy", []⟩⟩] ∧
    r.destroy.destroyResolved = false ∧
    r.destroy.afterDestroy.destroyResolved = true ∧
    r.workingDir ∉ r.destroy.afterDestroy.fs ∧
    (∀ q ∈ r.destroy.afterDestroy.fs,
      q ∈ r.fs ∧ strIsPrefixOf (r.workingDir ++ "/") q = false) := by
  refine ⟨rfl, h, rfl, ?_, ?_⟩
  · intro hmem
    have hmem2 : r.workingDir ∈ removeRec r.fs (pathJoin r.componentDir r.id) := hmem
    exact ((mem_removeRec r.fs (pathJoin r.componentDir r.id) r.workingDir).mp hmem2).2.1 rfl
  · intro q hq
    have hq2 : q ∈ removeRec r.fs (pathJoin r.componentDir r.id) := hq
    have h2 := (mem_removeRec r.fs (pathJoin r.componentDir r.id) q).mp hq2
    exact ⟨h2.1, h2.2.2⟩

/-- Witness for C9: destroying a Runnable whose filesystem holds its
working directory, a file below it and an unrelated path sends the
destroy frame, keeps the promise pending until the exit handler runs, and
then only the unrelated path survives. -/
theorem claim9_destroy_witness :
    destroyedRunnable.destroy.sent =
      destroyedRunnable.sent ++ [⟨PluginOperator.WRITE, ⟨"destroy", []⟩⟩] ∧
    destroyedRunnable.destroy.destroyResolved = false ∧
    destroyedRunnable.destroy.afterDestroy.destroyResolved = true ∧
    destroyedRunnable.destroy.afterDestroy.fs = ["other"] :=
  ⟨(claim9_destroy_removes_workingdir destroyedRunnable rfl).1,
   (claim9_destroy_removes_workingdir destroyedRunnable rfl).2.1,
   (claim9_destroy_removes_workingdir destroyedRunnable rfl).2.2.1,
   rfl⟩

/-- Claim C10.  The orchestrator's message handler delivers an inbound
frame only to the resolver parked in the single `onread` slot — of which
there is at most one, the slot being a single `Option` — and resolving an
already-settled promise is a no-op.  So while no `read()` is pending
(either no resolver was ever registered, or the registered one's promise
is already settled) an inbound frame is discarded with no effect on the
Runnable at all; and even when a pending read exists, nothing but that
single promise is touched. -/
theorem claim10_message_dispatch (r : Runnable) (msg : PluginProto) :
    (r.onread = none → r.handleMessage msg = r) ∧
    (∀ pid, r.onread = some pid →
      (((pid, (none : Option PluginProto)) ∉ r.promises) → r.handleMessage msg = r) ∧
      (∀ q res, q ≠ pid →
        (((q, res) ∈ (r.handleMessage msg).promises) ↔ ((q, res) ∈ r.promises))) ∧
      (r.handleMessage msg).onread = r.onread ∧
      (r.handleMessage msg).sent = r.sent ∧
      (r.handleMessage msg).state = r.state ∧
      (r.handleMessage msg).fs = r.fs ∧
      (r.handleMessage msg).destroyResolved = r.destroyResolved) := by
  constructor
  · intro h0
    simp only [Runnable.handleMessage, h0]
  · intro pid hp
    refine ⟨?_, ?_, ?_, ?_, ?_, ?_, ?_⟩
    · intro hnp
      simp only [Runnable.handleMessage, hp]
      rw [resolvePromise_of_not_pending r.promises pid msg hnp, ← hp]
    · intro q res hq
      simp only [Runnable.handleMessage, hp]
      exact mem_resolvePromise_of_ne r.promises pid q res msg hq
    · simp only [Runnable.handleMessage, hp]
    · simp only [Runnable.handleMessage, hp]
    · simp only [Runnable.handleMessage, hp]
    · simp only [Runnable.handleMessage, hp]
    · simp only [Runnable.handleMessage, hp]

/-- Witness for C10: a Runnable with no registered resolver discards a
frame with no effect, and on a Runnable whose slot points at promise `0`,
delivery leaves the unrelated pending promise `1` untouched. -/
theorem claim10_dispatch_witness :
    idleRunnable.handleMessage pongProto = idleRunnable ∧
    (((1 : Nat), (none : Option PluginProto)) ∈
        (pendingReadRunnable.handleMessage pongProto).promises ↔
      ((1 : Nat), (none : Option PluginProto)) ∈ pendingReadRunnable.promises) :=
  ⟨(claim10_message_dispatch idleRunnable pongProto).1 rfl,
   ((claim10_message_dispatch pendingReadRunnable pongProto).2 0 rfl).2.1 1 none (by decide)⟩

end Costa
